import Mathlib

/-!
Verification development for the company-info MCP server repository.

The repository contains near-duplicate TypeScript variants of a tool server
(`src/src/index.ts`, `src/unnamed/part_000`, `src/build/index.js`).  The
definitions below are shallow embeddings of its functions: JavaScript strings
become Lean `String`s, JSON objects become structures with `Option` fields
(with `none` standing for an absent / `undefined` field), JavaScript
truthiness of strings is modelled explicitly, thrown errors become
`Except` errors, and every HTTP interaction is modelled by passing the
provider response in as data and recording the request in an explicit trace.
-/

set_option maxRecDepth 10000

/-- JavaScript truthiness of a possibly-absent string value: `undefined`,
`null` and the empty string are falsy, every other string is truthy. -/
def truthyOS : Option String → Bool
  | none => false
  | some s => !(s == "")

/-- JavaScript `a || b` on possibly-absent string values (falsy left operand
selects the right operand). -/
def jsOrOS (a b : Option String) : Option String :=
  if truthyOS a then a else b

/-- JavaScript `a || "b"` where the fallback is a plain string. -/
def jsOrStr (a : Option String) (b : String) : String :=
  match a with
  | none => b
  | some s => if s == "" then b else s

/-- ASCII/Latin-1 lowercasing of a character, matching what JavaScript
`String.prototype.toLowerCase` does on the Latin-1 range (the only range the
data tables and examples of this repository use): ASCII `A`–`Z` and Latin-1
`À`–`Þ` (except the multiplication sign `×`) are shifted down to their
lowercase forms, everything else is unchanged. -/
def jsCharToLower (c : Char) : Char :=
  if 'A' ≤ c ∧ c ≤ 'Z' then Char.ofNat (c.toNat + 32)
  else if ('À' ≤ c ∧ c ≤ 'Þ') ∧ c ≠ '×' then Char.ofNat (c.toNat + 32)
  else c

/-- JavaScript `s.toLowerCase()` (on the Latin-1 range, see `jsCharToLower`). -/
def jsToLower (s : String) : String :=
  String.mk (s.toList.map jsCharToLower)

/-- Does the character list `hay` contain `needle` as a contiguous run?
Backs the model of JavaScript `String.prototype.includes`. -/
def charsContain (needle : List Char) : List Char → Bool
  | [] => needle.isEmpty
  | c :: rest => needle.isPrefixOf (c :: rest) || charsContain needle rest

/-- JavaScript `hay.includes(needle)` (substring containment). -/
def strIncludes (hay needle : String) : Bool :=
  charsContain needle.toList hay.toList

/-- The fixed multilingual technical-role keyword list of `isTechnicalJob`
(identical in `src/src/index.ts` lines 1012–1083 / 1794–1865 and
`src/unnamed/part_000` lines 514–585). -/
def techKeywords : List String :=
  [ "engineer"
  , "ingénieur"
  , "developer"
  , "développeur"
  , "architect"
  , "architecte"
  , "machine learning"
  , "apprentissage automatique"
  , "kunstmatige intelligentie"
  , "intelligence artificielle"
  , "backend"
  , "back end"
  , "arrière-plan"
  , "front end"
  , "frontend"
  , "interface utilisateur"
  , "full stack"
  , "fullstack"
  , "pile complète"
  , "software"
  , "logiciel"
  , "logiciel développeur"
  , "softwareontwikkelaar"
  , "développeur de logiciels"
  , "data scientist"
  , "scientifique des données"
  , "datawetenschapper"
  , "ml"
  , "apprentissage automatique"
  , "ai engineer"
  , "ingénieur en intelligence artificielle"
  , "artificial intelligence"
  , "intelligence artificielle"
  , "cloud"
  , "nuage"
  , "informatique en nuage"
  , "devops"
  , "security engineer"
  , "ingénieur en sécurité"
  , "beveiligingsingenieur"
  , "embedded"
  , "embarqué"
  , "systems engineer"
  , "ingénieur en systèmes"
  , "systeemingenieur"
  , "ingénieur système"
  , "robotics"
  , "robotique"
  , "robotica"
  , "computer vision"
  , "vision par ordinateur"
  , "computervisie"
  , "aws"
  , "amazon web services"
  , "azure"
  , "gcp"
  , "google cloud"
  , "cloud architect"
  , "architecte cloud"
  , "cloud ingenieur"
  , "ingénieur cloud"
  , "cloud engineer"
  , "cloud security"
  , "sécurité du cloud"
  , "cloudbeveiliging"
  , "kubernetes"
  , "docker"
  , "serverless"
  , "sans serveur"
  , "python"
  ]

/-- The classifier `isTechnicalJob(jobTitle)`: lowercase the title, keep the keywords it
contains, succeed when at least one matched (`src/src/index.ts` 1011–1088). -/
def isTechnicalJob (jobTitle : String) : Bool :=
  let lowerCaseTitle := jsToLower jobTitle
  let matched := techKeywords.filter (fun keyword => strIncludes lowerCaseTitle keyword)
  decide (0 < matched.length)

/-- The guard used at every call site that may face an absent title:
`isTechnicalJob(job.job_title || '')` (`src/src/index.ts` line 1158). -/
def isTechnicalJobOfTitle (title : Option String) : Bool :=
  isTechnicalJob (jsOrStr title "")

/-- The fixed alias table `knownCompanyIds` of `generateLinkedInId`, in
declaration order (`src/unnamed/part_000` 457–493, `src/src/index.ts`
1740–1776). -/
def knownCompanyIds : List (String × String) :=
  [ ("rtl nederland", "rtl-nederland")
  , ("rtl", "rtl-nederland")
  , ("npo", "npo")
  , ("nederlandse publieke omroep", "npo")
  , ("dpg media", "dpg-media")
  , ("dpg", "dpg-media")
  , ("talpa", "talpanetwork")
  , ("talpa network", "talpanetwork")
  , ("shell", "shell")
  , ("essent", "essent")
  , ("vattenfall", "vattenfall")
  , ("eneco", "eneco")
  , ("kpn", "kpn")
  , ("ing", "ing")
  , ("ing group", "ing")
  , ("abn amro", "abnamro")
  , ("abn", "abnamro")
  , ("rabobank", "rabobank")
  , ("philips", "philips")
  , ("heineken", "heineken")
  , ("unilever", "unilever")
  , ("asml", "asml")
  , ("kpmg", "kpmg")
  , ("pwc", "pwc")
  , ("deloitte", "deloitte")
  , ("ey", "ey")
  , ("tata steel", "tata-steel-europe")
  , ("bol.com", "bol-com")
  , ("bol", "bol-com")
  , ("ibm", "ibm")
  , ("microsoft", "microsoft")
  , ("google", "google")
  , ("amazon", "amazon")
  , ("booking.com", "booking-com")
  , ("booking", "booking-com")
  ]

/-- JavaScript word character (`\w` without the `u` flag): ASCII letters,
digits and underscore. -/
def isWordChar (c : Char) : Bool :=
  ('a' ≤ c && c ≤ 'z') || ('A' ≤ c && c ≤ 'Z') || ('0' ≤ c && c ≤ '9') || c == '_'

/-- JavaScript whitespace (`\s`), restricted to the characters that can occur
in the data of this repository. -/
def isJsSpace (c : Char) : Bool :=
  c == ' ' || c == '\t' || c == '\n' || c == '\x0d'

/-- Helper of `replaceRuns`: the flag records whether the previous character
was part of a run matched by `p` (in which case the current matching
character belongs to the same run and emits nothing). -/
def replaceRunsAux (p : Char → Bool) (r : Char) : Bool → List Char → List Char
  | _, [] => []
  | inRun, c :: rest =>
    if p c then
      if inRun then replaceRunsAux p r true rest
      else r :: replaceRunsAux p r true rest
    else c :: replaceRunsAux p r false rest

/-- Model of `str.replace(/p+/g, r)` where `p` matches single characters: every maximal
run of characters satisfying `p` is replaced by the single character `r`. -/
def replaceRuns (p : Char → Bool) (r : Char) (l : List Char) : List Char :=
  replaceRunsAux p r false l

/-- JavaScript `String.prototype.trim` on a character list. -/
def jsTrimChars (l : List Char) : List Char :=
  ((l.dropWhile isJsSpace).reverse.dropWhile isJsSpace).reverse

/-- The slugification fallback of `generateLinkedInId`
(`src/unnamed/part_000` 505–510): lowercase, strip characters that are not
word characters, whitespace or hyphens, collapse whitespace runs to single
hyphens, collapse hyphen runs, trim. -/
def slugify (companyName : String) : String :=
  let step1 := (jsToLower companyName).toList
  let step2 := step1.filter (fun c => isWordChar c || isJsSpace c || c == '-')
  let step3 := replaceRuns isJsSpace '-' step2
  let step4 := replaceRuns (fun c => c == '-') '-' step3
  String.mk (jsTrimChars step4)

/-- The alias-table scan of `generateLinkedInId`: walk the entries in
declaration order and return the value of the first entry whose key is a
substring of the lowercased name (`for (const [key, value] of
Object.entries(knownCompanyIds)) if (lowerName.includes(key)) return value`). -/
def lookupKnown (lowerName : String) : List (String × String) → Option String
  | [] => none
  | kv :: rest =>
    if strIncludes lowerName kv.1 then some kv.2 else lookupKnown lowerName rest

/-- The resolver `generateLinkedInId(companyName)` (`src/unnamed/part_000` 455–511,
`src/src/index.ts` 1739–1791). -/
def generateLinkedInId (companyName : String) : String :=
  let lowerName := jsToLower companyName
  match lookupKnown lowerName knownCompanyIds with
  | some value => value
  | none => slugify companyName

/-- The subset of MCP error codes this server uses
(`ErrorCode` of `@modelcontextprotocol/sdk/types.js`). -/
inductive ErrorCode where
  | MethodNotFound
  | InvalidParams
  | InternalError
  deriving DecidableEq, Repr, BEq

/-- The numeric JSON-RPC value of each error code, as defined by the SDK. -/
def errorCodeInt : ErrorCode → Int
  | .MethodNotFound => -32601
  | .InvalidParams => -32602
  | .InternalError => -32603

/-- An `McpError` value: an error code plus the message passed to the
constructor. -/
structure McpError where
  code : ErrorCode
  message : String
  deriving DecidableEq, Repr, BEq

/-- The `Error.message` property of an `McpError`: the SDK constructor runs
`super("MCP error " + code + ": " + message)`, so this is the text any
`catch` block observes when it reads `error.message`. -/
def mcpErrorText (e : McpError) : String :=
  "MCP error " ++ toString (errorCodeInt e.code) ++ ": " ++ e.message

/-- One outgoing provider HTTP request, as recorded in the explicit request
trace of each embedded operation. -/
inductive ProviderReq where
  | jobsPage (company companyId : String) (page : Nat)
  | jobDetails (jobId : String)
  | companyProfile (linkId : String)
  | emailSearch (domain firstName lastName companyName : String)
  | progressGet (snapshotId : String)
  | snapshotGet (snapshotId : String)
  | triggerPost (datasetId : String)
  deriving DecidableEq, Repr, BEq

/-- Is a request a Bright Data trigger POST (the request that starts a new
collection)? -/
def isTriggerReq : ProviderReq → Bool
  | .triggerPost _ => true
  | _ => false

/-- Whether an `Except` value is a success, as a plain boolean. -/
def exceptIsOk {ε α : Type} : Except ε α → Bool
  | .ok _ => true
  | .error _ => false

/-- The `results` object of an AnymailFinder response body. -/
structure EmailResults where
  email : String
  validation : String
  deriving DecidableEq, Repr

/-- The parsed AnymailFinder response body. -/
structure EmailData where
  success : Bool
  results : EmailResults
  error_explained : Option String
  deriving DecidableEq, Repr

/-- An AnymailFinder HTTP response: status, status text, parsed body, and the
raw body text (used only in the diagnostic of the out-of-range-status
branch, standing for `JSON.stringify(error.response.data)`). -/
structure EmailHttpResponse where
  status : Nat
  statusText : String
  data : EmailData
  rawBody : String
  deriving DecidableEq, Repr

/-- The arguments of `get_employee_work_email`. -/
structure EmailArgs where
  domain : String
  firstName : String
  lastName : String
  companyName : String
  deriving DecidableEq, Repr

/-- The two success payload shapes of the email lookup. -/
inductive EmailOut where
  | found (email : String) (valid : Bool) (success : Bool) (timestamp : String)
  | notFound (message : String) (timestamp : String)
  deriving DecidableEq, Repr

/-- Embedding of `CompanyInfoServer.fetchEmployeeEmail` (`src/src/index.ts` 1878–1971).
The provider response is passed in as data; `axios` is configured with
`validateStatus: 200 <= status < 500`, so a status outside that range
surfaces as a thrown request error which the catch block converts to an
InternalError naming the status.  McpErrors thrown inside the try block are
rethrown unchanged by the catch block (`error instanceof McpError`). -/
def fetchEmployeeEmail (anymailKey : Option String) (args : EmailArgs)
    (response : EmailHttpResponse) (now : String) :
    Except McpError EmailOut × List ProviderReq :=
  if !truthyOS anymailKey then
    (.error ⟨.InternalError, "Missing AnymailFinder API key"⟩, [])
  else
    let trace := [ProviderReq.emailSearch args.domain args.firstName args.lastName args.companyName]
    let d := response.data
    if 200 ≤ response.status ∧ response.status < 500 then
      if response.status == 200 && d.success then
        (.ok (.found d.results.email (d.results.validation == "valid") d.success now), trace)
      else if response.status == 400 || response.status == 401 then
        (.error ⟨.InvalidParams,
          "Invalid request: " ++ jsOrStr d.error_explained "Authentication error"⟩, trace)
      else if response.status == 402 then
        (.error ⟨.InternalError,
          "Insufficient credits: " ++ jsOrStr d.error_explained "Account has insufficient credits"⟩, trace)
      else if response.status == 404 || response.status == 451 then
        (.ok (.notFound "Email not found" now), trace)
      else
        (.error ⟨.InternalError,
          "Unknown error: " ++ toString response.status ++ " " ++ response.statusText⟩, trace)
    else
      (.error ⟨.InternalError,
        "Request failed with status " ++ toString response.status ++ ": " ++ response.rawBody⟩, trace)

/-- The parsed body of a Bright Data progress response (only its `status`
field is read; the whole payload is echoed back in the in-progress result). -/
structure ProgressPayload where
  status : Option String
  deriving DecidableEq, Repr

/-- A raw company update inside a Bright Data snapshot record. -/
structure RawUpdate where
  text : Option String
  likes_count : Option Nat
  comments_count : Option Nat
  date : Option String
  time : Option String
  post_url : Option String
  images : List String
  deriving DecidableEq, Repr

/-- A raw company record inside a Bright Data snapshot (fields the reshaping
code reads; an absent list field is modelled as the empty list, matching the
`|| []` guards at every use). -/
structure RawCompany where
  url : Option String
  name : Option String
  industries : Option String
  industry : Option String
  about : Option String
  website : Option String
  headquarters : Option String
  founded : Option String
  company_size : Option String
  specialties : Option String
  followers : Option Nat
  company_id : Option String
  organization_type : Option String
  locations : Option String
  formatted_locations : Option String
  employees_in_linkedin : Option Nat
  employees : List String
  updates : List RawUpdate
  similar : List String
  affiliated : List String
  logo : Option String
  deriving DecidableEq, Repr

/-- JavaScript `n || null` on a possibly-absent number (`0` is falsy). -/
def jsOrNatNull (n : Option Nat) : Option Nat :=
  match n with
  | some 0 => none
  | x => x

/-- A reshaped company update (`update => ({text, likes, comments, ...})`). -/
structure FormattedUpdate where
  text : Option String
  likes : Nat
  comments : Nat
  date : Option String
  postUrl : Option String
  images : List String
  deriving DecidableEq, Repr

/-- The `employees` sub-object of a reshaped company. -/
structure FormattedEmployees where
  count : Option Nat
  profiles : List String
  deriving DecidableEq, Repr

/-- A reshaped company record of `getCompaniesData`. -/
structure FormattedCompany where
  url : Option String
  name : Option String
  industry : Option String
  description : Option String
  website : Option String
  headquarters : Option String
  foundedYear : Option String
  companySize : Option String
  specialties : Option String
  followers : Option Nat
  companyId : Option String
  organizationType : Option String
  locations : Option String
  employees : FormattedEmployees
  updates : List FormattedUpdate
  similar : List String
  affiliated : List String
  logo : Option String
  timestamp : String
  deriving DecidableEq, Repr

/-- The per-update reshaping inside `getCompaniesData`. -/
def formatUpdate (u : RawUpdate) : FormattedUpdate :=
  { text := jsOrOS u.text none
  , likes := u.likes_count.getD 0
  , comments := u.comments_count.getD 0
  , date := jsOrOS u.date (jsOrOS u.time none)
  , postUrl := jsOrOS u.post_url none
  , images := u.images }

/-- The per-company reshaping inside `getCompaniesData`
(`src/src/index.ts` 236–266). -/
def formatCompany (now : String) (c : RawCompany) : FormattedCompany :=
  { url := jsOrOS c.url none
  , name := jsOrOS c.name none
  , industry := jsOrOS c.industries (jsOrOS c.industry none)
  , description := jsOrOS c.about none
  , website := jsOrOS c.website none
  , headquarters := jsOrOS c.headquarters none
  , foundedYear := jsOrOS c.founded none
  , companySize := jsOrOS c.company_size none
  , specialties := jsOrOS c.specialties none
  , followers := jsOrNatNull c.followers
  , companyId := jsOrOS c.company_id none
  , organizationType := jsOrOS c.organization_type none
  , locations := jsOrOS c.locations (jsOrOS c.formatted_locations none)
  , employees := { count := jsOrNatNull c.employees_in_linkedin, profiles := c.employees }
  , updates := (c.updates.take 3).map formatUpdate
  , similar := c.similar
  , affiliated := c.affiliated
  , logo := jsOrOS c.logo none
  , timestamp := now }

/-- The body of a Bright Data snapshot GET: `absent` models a falsy body
(empty / missing), otherwise the body is a single record or an array of
records (`Array.isArray(data) ? data : [data]`).  Note that an empty array
is truthy in JavaScript, hence distinct from `absent`. -/
inductive SnapshotData where
  | absent
  | single (c : RawCompany)
  | array (cs : List RawCompany)
  deriving DecidableEq, Repr

/-- Model of `Array.isArray(data) ? data : [data]` on a (truthy) snapshot body. -/
def snapshotToList : SnapshotData → List RawCompany
  | .absent => []
  | .single c => [c]
  | .array cs => cs

/-- The provider-side state a single `get_companies_data` check runs
against: the progress body the progress GET would return (`none` models a
falsy body), the snapshot body the snapshot GET would return, and the
current timestamp. -/
structure BrightWorld where
  progress : Option ProgressPayload
  snapshot : SnapshotData
  now : String

/-- The two return shapes of `getCompaniesData`: the in-progress payload
(non-ready status) and the ready payload. -/
inductive CompaniesOut where
  | inProgress (status message : String) (progress : ProgressPayload)
      (snapshot_id next_step : String)
  | ready (status message : String) (companies : List FormattedCompany)
      (count : Nat) (snapshot_id timestamp : String)
  deriving DecidableEq, Repr

/-- The `snapshot_id` field present in both return shapes. -/
def companiesOutSnapshotId : CompaniesOut → String
  | .inProgress _ _ _ sid _ => sid
  | .ready _ _ _ _ sid _ => sid

/-- Embedding of `getCompaniesData(snapshotId)` (`src/src/index.ts` 191–280): one progress
GET; a non-ready status returns the in-progress payload echoing the raw
progress body; a ready status issues the snapshot GET and reshapes the
records.  Errors thrown inside the try block are rewrapped by the catch
block as `Error retrieving companies data: ...`; the missing-token error is
thrown before the try block and is not wrapped. -/
def getCompaniesData (token : Option String) (w : BrightWorld) (snapshotId : String) :
    Except String CompaniesOut × List ProviderReq :=
  if !truthyOS token then
    (.error "Missing Bright Data Bearer Token", [])
  else
    match w.progress with
    | none =>
      (.error "Error retrieving companies data: Failed to check dataset progress: Empty response",
       [.progressGet snapshotId])
    | some p =>
      if !(p.status == some "ready") then
        (.ok (.inProgress (jsOrStr p.status "processing")
                "Data collection is still in progress" p snapshotId
                "Please check again in a few moments"),
         [.progressGet snapshotId])
      else
        match w.snapshot with
        | .absent =>
          (.error "Error retrieving companies data: Failed to fetch dataset snapshot: Empty response",
           [.progressGet snapshotId, .snapshotGet snapshotId])
        | sd =>
          let formatted := (snapshotToList sd).map (formatCompany w.now)
          (.ok (.ready "ready" "Data collection completed successfully" formatted
                  formatted.length snapshotId w.now),
           [.progressGet snapshotId, .snapshotGet snapshotId])

/-- Holds when an outcome of `getCompaniesData` echoes the input handle in
its `snapshot_id` field (vacuously true for error outcomes, which have no
payload). -/
def companiesResultEchoes (snapshotId : String) : Except String CompaniesOut → Bool
  | .ok v => companiesOutSnapshotId v == snapshotId
  | .error _ => true

/-- Modelled from the spec: outcome of the bounded internal poll loop of
AsyncCollectionJob (spec §4.4).  The repository sources present here expose
only the split initiate/check shape (each check call performs a single
progress GET); the variant that blocks internally on a fixed interval for at
most 30 attempts is not among the source files, so its loop is modelled from
the words of the spec. -/
inductive PollStatus where
  | ready
  | fatalError (payload : String)
  | timedOut
  deriving DecidableEq, Repr

/-- Modelled from the spec: the observed poll-attempt cap (spec §4.4,
"a bounded number of attempts (observed cap: 30)"). -/
def maxPollAttempts : Nat := 30

/-- Modelled from the spec: poll the progress endpoint starting at attempt
`i` with the given remaining attempt budget.  `progress i` is the status
field of the `i`-th progress response (the raw payload of the model).
Returns the terminal status together with the number of polls performed:
`ready` stops polling, `error` is fatal and carries the raw payload,
an exhausted budget is `timedOut`. -/
def pollLoopFrom (progress : Nat → String) : Nat → Nat → PollStatus × Nat
  | i, 0 => (.timedOut, i)
  | i, remaining + 1 =>
    if progress i = "ready" then (.ready, i + 1)
    else if progress i = "error" then (.fatalError (progress i), i + 1)
    else pollLoopFrom progress (i + 1) remaining

/-- Modelled from the spec: run the AsyncCollectionJob workflow against a
progress endpoint.  Returns the terminal status, the number of progress
polls performed, and the number of snapshot fetches performed (the snapshot
is fetched exactly when polling ended `ready`). -/
def runAsyncCollectionJob (progress : Nat → String) : PollStatus × Nat × Nat :=
  let r := pollLoopFrom progress 0 maxPollAttempts
  (r.1, r.2, match r.1 with | .ready => 1 | _ => 0)

/-- A raw job record of a ScrapingDog jobs page. -/
structure RawJob where
  job_id : String
  job_position : String
  job_link : String
  company_name : String
  company_profile : String
  job_location : String
  job_posting_date : String
  deriving DecidableEq, Repr

/-- A reshaped job posting of `fetchCompanyJobPostings`. -/
structure JobPosting where
  jobId : String
  jobPosition : String
  jobLink : String
  companyName : String
  companyProfile : String
  jobLocation : String
  jobPostingDate : String
  deriving DecidableEq, Repr

/-- The per-job reshaping inside the pagination loop. -/
def formatJobPosting (j : RawJob) : JobPosting :=
  { jobId := j.job_id
  , jobPosition := j.job_position
  , jobLink := j.job_link
  , companyName := j.company_name
  , companyProfile := j.company_profile
  , jobLocation := j.job_location
  , jobPostingDate := j.job_posting_date }

/-- One page fetch of the ScrapingDog jobs endpoint: either the request
resolved (`axios` resolves exactly for 2xx statuses under its default
`validateStatus`) with a body, or it threw, carrying the response status
when a response was received. -/
inductive PageResult where
  | success (status : Nat) (jobs : List RawJob)
  | failure (status : Option Nat) (msg : String)
  deriving DecidableEq, Repr

/-- Model of `data.map(format).filter(job => this.isTechnicalJob(job.jobPosition))`:
the reshape-then-filter applied to each page body. -/
def techFilter (jobs : List RawJob) : List JobPosting :=
  (jobs.map formatJobPosting).filter (fun j => isTechnicalJob j.jobPosition)

/-- The `countryGeoIdMap` of `fetchCompanyJobPostings`. -/
def countryGeoId (country : String) : Option String :=
  if country == "Belgium" then some "100565514"
  else if country == "Netherlands" then some "102890719"
  else none

/-- The `while (true)` pagination loop of `fetchCompanyJobPostings`
(`src/src/index.ts` 1507–1562), run with explicit fuel since the source loop
is unbounded: `none` means the loop did not terminate within `fuel`
iterations.  A 200 page with an empty body or a thrown 404 breaks the loop;
a 200 page accumulates the technical jobs; a resolved non-200 page is
skipped; any other thrown error is rethrown. -/
def jobsLoop (pages : Nat → PageResult) (company companyId : String) :
    Nat → Nat → List JobPosting → List ProviderReq →
    Option (Except String (List JobPosting) × List ProviderReq)
  | 0, _, _, _ => none
  | fuel + 1, page, acc, trace =>
    let trace := trace ++ [ProviderReq.jobsPage company companyId page]
    match pages page with
    | .success 200 jobs =>
      if jobs.isEmpty then some (.ok acc, trace)
      else jobsLoop pages company companyId fuel (page + 1) (acc ++ techFilter jobs) trace
    | .success _ _ => jobsLoop pages company companyId fuel (page + 1) acc trace
    | .failure (some 404) _ => some (.ok acc, trace)
    | .failure _ msg => some (.error msg, trace)

/-- The result record of `fetchCompanyJobPostings`. -/
structure JobPostingsResult where
  company : String
  country : String
  filteredJobPostings : List JobPosting
  totalCount : Nat
  timestamp : String
  deriving DecidableEq, Repr

/-- Embedding of `CompanyInfoServer.fetchCompanyJobPostings(company, country, companyId)`
(`src/src/index.ts` 1489–1578): resolve the country geoid (InvalidParams when
unknown), page through the jobs endpoint from page 1, and assemble the
result; an error escaping the loop is wrapped as an InternalError by the
outer catch block. -/
def fetchCompanyJobPostings (fuel : Nat) (pages : Nat → PageResult)
    (company country companyId : String) (now : String) :
    Option (Except McpError JobPostingsResult × List ProviderReq) :=
  match countryGeoId country with
  | none =>
    some (.error ⟨.InvalidParams, "LinkedIn geoid not found for country: " ++ country⟩, [])
  | some _ =>
    match jobsLoop pages company companyId fuel 1 [] [] with
    | none => none
    | some (.ok allData, trace) =>
      some (.ok { company := company, country := country, filteredJobPostings := allData
                , totalCount := allData.length, timestamp := now }, trace)
    | some (.error msg, trace) =>
      some (.error ⟨.InternalError, "Failed to fetch job postings: " ++ msg⟩, trace)

/-- An error caught by a provider-method catch block: either an `McpError`
thrown inside the try block, or a thrown axios request error (carrying the
response status when a response was received). -/
inductive CaughtErr where
  | mcp (e : McpError)
  | axios (status : Option Nat) (msg : String)
  deriving DecidableEq, Repr

/-- A raw ScrapingDog job-details record. -/
structure RawJobDetails where
  job_position : Option String
  job_location : Option String
  company_name : Option String
  company_linkedin_id : Option String
  job_posting_time : Option String
  job_description : Option String
  Seniority_level : Option String
  Employment_type : Option String
  Job_function : Option String
  Industries : Option String
  deriving DecidableEq, Repr

/-- The reshaped job-details field set. -/
structure JobDetailsFields where
  jobPosition : Option String
  jobLocation : Option String
  companyName : Option String
  companyLinkedinId : Option String
  jobPostingTime : Option String
  jobDescription : Option String
  seniorityLevel : Option String
  employmentType : Option String
  jobFunction : Option String
  industries : Option String
  deriving DecidableEq, Repr

/-- The per-record reshaping of `fetchJobPostingDetails`. -/
def formatJobDetails (j : RawJobDetails) : JobDetailsFields :=
  { jobPosition := j.job_position
  , jobLocation := j.job_location
  , companyName := j.company_name
  , companyLinkedinId := j.company_linkedin_id
  , jobPostingTime := j.job_posting_time
  , jobDescription := j.job_description
  , seniorityLevel := j.Seniority_level
  , employmentType := j.Employment_type
  , jobFunction := j.Job_function
  , industries := j.Industries }

/-- The result record of `fetchJobPostingDetails`. -/
structure JobDetailsResult where
  jobId : String
  jobDetails : JobDetailsFields
  timestamp : String
  deriving DecidableEq, Repr

/-- The job-details HTTP outcome (same shape as `PageResult`, with the
details payload). -/
inductive DetailsResp where
  | success (status : Nat) (data : List RawJobDetails)
  | failure (status : Option Nat) (msg : String)
  deriving DecidableEq, Repr

/-- Embedding of `CompanyInfoServer.fetchJobPostingDetails(jobId)` (`src/src/index.ts`
1580–1650).  Note that the McpErrors thrown inside its try block (empty
data, unexpected status) are caught by its own catch block, which has no
`instanceof McpError` escape, so they resurface wrapped as InternalError
with the `message` text of the caught error. -/
def fetchJobPostingDetails (resp : DetailsResp) (jobId now : String) :
    Except McpError JobDetailsResult × List ProviderReq :=
  let trace := [ProviderReq.jobDetails jobId]
  let inner : Except CaughtErr JobDetailsResult :=
    match resp with
    | .success 200 [] =>
      .error (.mcp ⟨.InvalidParams, "No details found for job ID: " ++ jobId⟩)
    | .success 200 (d :: _) =>
      .ok { jobId := jobId, jobDetails := formatJobDetails d, timestamp := now }
    | .success st _ =>
      .error (.mcp ⟨.InternalError, "Unexpected response status: " ++ toString st⟩)
    | .failure st msg => .error (.axios st msg)
  match inner with
  | .ok r => (.ok r, trace)
  | .error (.axios (some 404) _) =>
    (.error ⟨.InvalidParams, "Job posting with ID " ++ jobId ++ " not found"⟩, trace)
  | .error (.mcp e) =>
    (.error ⟨.InternalError, "Failed to fetch job details: " ++ mcpErrorText e⟩, trace)
  | .error (.axios _ msg) =>
    (.error ⟨.InternalError, "Failed to fetch job details: " ++ msg⟩, trace)

/-- A raw company update of a ScrapingDog company profile. -/
structure RawProfileUpdate where
  text : Option String
  article_posted_date : Option String
  total_likes : Option Nat
  article_title : Option String
  article_link : Option String
  deriving DecidableEq, Repr

/-- A raw ScrapingDog company-profile record (fields the reshaping reads; an
absent `updates` field is modelled as the empty list, matching the
`companyData.updates && companyData.updates.length > 0` guard). -/
structure RawCompanyProfile where
  company_name : Option String
  linkedin_internal_id : Option String
  industry : Option String
  specialties : Option String
  founded : Option String
  company_size : Option String
  company_size_on_linkedin : Option String
  type : Option String
  website : Option String
  headquarters : Option String
  locations : Option String
  about : Option String
  employees : List String
  updates : List RawProfileUpdate
  deriving DecidableEq, Repr

/-- A reshaped recent update of `fetchCompanyInformation`. -/
structure ProfileUpdateOut where
  text : Option String
  postedDate : Option String
  likes : Option Nat
  title : Option String
  link : Option String
  deriving DecidableEq, Repr

/-- The reshaped company-profile field set of `fetchCompanyInformation`
(`src/src/index.ts` 1683–1708). -/
structure CompanyProfileFields where
  name : Option String
  companyId : Option String
  industry : Option String
  specialties : Option String
  founded : Option String
  companySize : Option String
  companySizeOnLinkedIn : Option String
  companyType : Option String
  website : Option String
  headquarters : Option String
  locations : Option String
  about : Option String
  employees : List String
  recentUpdates : List ProfileUpdateOut
  deriving DecidableEq, Repr

/-- The per-update reshaping of `fetchCompanyInformation`. -/
def formatProfileUpdate (u : RawProfileUpdate) : ProfileUpdateOut :=
  { text := u.text
  , postedDate := u.article_posted_date
  , likes := u.total_likes
  , title := u.article_title
  , link := u.article_link }

/-- The per-profile reshaping of `fetchCompanyInformation` (plain field
copies; `recentUpdates` takes the first three updates). -/
def formatCompanyProfile (d : RawCompanyProfile) : CompanyProfileFields :=
  { name := d.company_name
  , companyId := d.linkedin_internal_id
  , industry := d.industry
  , specialties := d.specialties
  , founded := d.founded
  , companySize := d.company_size
  , companySizeOnLinkedIn := d.company_size_on_linkedin
  , companyType := d.type
  , website := d.website
  , headquarters := d.headquarters
  , locations := d.locations
  , about := d.about
  , employees := d.employees
  , recentUpdates := (d.updates.take 3).map formatProfileUpdate }

/-- The result record of `fetchCompanyInformation`. -/
structure CompanyInfoResult where
  companyName : String
  linkedInId : String
  companyData : CompanyProfileFields
  timestamp : String
  deriving DecidableEq, Repr

/-- The company-profile HTTP outcome. -/
inductive ProfileResp where
  | success (status : Nat) (data : List RawCompanyProfile)
  | failure (status : Option Nat) (msg : String)
  deriving DecidableEq, Repr

/-- Embedding of `CompanyInfoServer.fetchCompanyInformation(companyName, linkedInId?)`
(`src/src/index.ts` 1652–1737): resolve the LinkedIn id (via
`generateLinkedInId` when none was supplied), fetch the profile, reshape the
first record; a thrown 404 becomes an InvalidParams naming the id that was
tried, and any other caught error is wrapped as an InternalError with the
the `message` text of the caught error. -/
def fetchCompanyInformation (resp : ProfileResp) (companyName : String)
    (linkedInId : Option String) (now : String) :
    Except McpError CompanyInfoResult × List ProviderReq :=
  let linkId := if truthyOS linkedInId then linkedInId.getD "" else generateLinkedInId companyName
  let trace := [ProviderReq.companyProfile linkId]
  let inner : Except CaughtErr CompanyInfoResult :=
    match resp with
    | .success 200 [] =>
      .error (.mcp ⟨.InvalidParams, "No information found for company: " ++ companyName⟩)
    | .success 200 (d :: _) =>
      .ok { companyName := companyName, linkedInId := linkId
          , companyData := formatCompanyProfile d, timestamp := now }
    | .success st _ =>
      .error (.mcp ⟨.InternalError, "Unexpected response status: " ++ toString st⟩)
    | .failure st msg => .error (.axios st msg)
  match inner with
  | .ok r => (.ok r, trace)
  | .error (.axios (some 404) _) =>
    (.error ⟨.InvalidParams, "Company profile not found for: " ++ companyName
      ++ ". LinkedIn ID tried: " ++ jsOrStr linkedInId (generateLinkedInId companyName)⟩, trace)
  | .error (.mcp e) =>
    (.error ⟨.InternalError, "Failed to fetch company information: " ++ mcpErrorText e⟩, trace)
  | .error (.axios _ msg) =>
    (.error ⟨.InternalError, "Failed to fetch company information: " ++ msg⟩, trace)

/-- The provider-side state and configuration one dispatched tool call runs
against. -/
structure World where
  jobsPages : Nat → PageResult
  detailsResp : DetailsResp
  profileResp : ProfileResp
  emailResp : EmailHttpResponse
  anymailKey : Option String
  now : String

/-- An incoming tool-call request: a tool name and an argument bag (string
keys to string values; an absent key models an `undefined` argument). -/
structure ToolRequest where
  name : String
  arguments : List (String × String)

/-- JavaScript property read `args[key]` on the argument bag. -/
def getArg (args : List (String × String)) (key : String) : Option String :=
  (args.find? (fun kv => kv.1 == key)).map (fun kv => kv.2)

/-- The successful payloads the four registered tools can produce. -/
inductive ToolValue where
  | jobPostings (r : JobPostingsResult)
  | jobDetails (r : JobDetailsResult)
  | companyInfo (r : CompanyInfoResult)
  | email (r : EmailOut)
  deriving DecidableEq, Repr

/-- The registered tool names of the CallTool dispatcher
(`src/src/index.ts` 1357–1486, `src/unnamed/part_000` 98–193; the
`part_000` variant registers the first three). -/
def knownToolNames : List String :=
  [ "get_company_job_postings"
  , "get_job_posting_details"
  , "get_company_information"
  , "get_employee_work_email" ]

/-- The try-block body of the CallTool request handler
(`src/src/index.ts` 1357–1475): name dispatch, truthiness validation of the
checked arguments, then the tool method.  `none` models a call whose
pagination loop did not terminate within the fuel.  An absent email
`companyName` is not validated and is forwarded to the provider call
(modelled as the empty string). -/
def handleCallToolInner (w : World) (fuel : Nat) (req : ToolRequest) :
    Option (Except McpError ToolValue × List ProviderReq) :=
  let toolName := req.name
  if toolName == "get_company_job_postings" then
    let company := getArg req.arguments "company"
    let country := getArg req.arguments "country"
    let companyId := getArg req.arguments "companyId"
    if !truthyOS company || !truthyOS country || !truthyOS companyId then
      some (.error ⟨.InvalidParams, "Missing required parameters: company, country, or companyId"⟩, [])
    else
      match fetchCompanyJobPostings fuel w.jobsPages (company.getD "") (country.getD "")
          (companyId.getD "") w.now with
      | none => none
      | some (.ok r, t) => some (.ok (.jobPostings r), t)
      | some (.error e, t) => some (.error e, t)
  else if toolName == "get_job_posting_details" then
    let jobId := getArg req.arguments "jobId"
    if !truthyOS jobId then
      some (.error ⟨.InvalidParams, "Missing required parameter: jobId"⟩, [])
    else
      match fetchJobPostingDetails w.detailsResp (jobId.getD "") w.now with
      | (.ok r, t) => some (.ok (.jobDetails r), t)
      | (.error e, t) => some (.error e, t)
  else if toolName == "get_company_information" then
    let companyName := getArg req.arguments "companyName"
    if !truthyOS companyName then
      some (.error ⟨.InvalidParams, "Missing required parameter: companyName"⟩, [])
    else
      match fetchCompanyInformation w.profileResp (companyName.getD "")
          (getArg req.arguments "linkedInId") w.now with
      | (.ok r, t) => some (.ok (.companyInfo r), t)
      | (.error e, t) => some (.error e, t)
  else if toolName == "get_employee_work_email" then
    let domain := getArg req.arguments "domain"
    let firstName := getArg req.arguments "firstName"
    let lastName := getArg req.arguments "lastName"
    let companyName := getArg req.arguments "companyName"
    if !truthyOS domain then
      some (.error ⟨.InvalidParams, "Missing required parameter: domain"⟩, [])
    else if !truthyOS firstName || !truthyOS lastName then
      some (.error ⟨.InvalidParams, "You must provide either firstName and lastName"⟩, [])
    else
      match fetchEmployeeEmail w.anymailKey
          ⟨domain.getD "", firstName.getD "", lastName.getD "", companyName.getD ""⟩
          w.emailResp w.now with
      | (.ok r, t) => some (.ok (.email r), t)
      | (.error e, t) => some (.error e, t)
  else
    some (.error ⟨.MethodNotFound, "Unknown tool: " ++ toolName⟩, [])

/-- The catch block of the CallTool request handler (`src/src/index.ts`
1476–1485): `McpError` extends `Error` in the SDK, so `error instanceof
Error` holds for every error thrown inside the try block — including the
deliberately thrown MethodNotFound and InvalidParams ones — and each is
rethrown as a fresh InternalError wrapping the `message`
text of the caught error. -/
def wrapCaughtError (e : McpError) : McpError :=
  ⟨.InternalError, "Failed to process request: " ++ mcpErrorText e⟩

/-- The complete CallTool request handler: try-block body plus the catch
block that rewraps every escaping error. -/
def handleCallTool (w : World) (fuel : Nat) (req : ToolRequest) :
    Option (Except McpError ToolValue × List ProviderReq) :=
  match handleCallToolInner w fuel req with
  | none => none
  | some (.ok v, t) => some (.ok v, t)
  | some (.error e, t) => some (.error (wrapCaughtError e), t)

/-- The error code of a dispatch outcome, when it is an error. -/
def dispatchErrorCode : Option (Except McpError ToolValue × List ProviderReq) → Option ErrorCode
  | some (.error e, _) => some e.code
  | _ => none

/-- The request trace of a dispatch outcome. -/
def dispatchTrace : Option (Except McpError ToolValue × List ProviderReq) → List ProviderReq
  | some (_, t) => t
  | none => []

/-- A concrete provider world used to instantiate universally quantified
theorems at a specific input. -/
def sampleWorld : World :=
  { jobsPages := fun _ => .success 200 []
  , detailsResp := .success 200 []
  , profileResp := .success 200 []
  , emailResp := { status := 404, statusText := "Not Found"
                 , data := { success := false
                           , results := { email := "", validation := "" }
                           , error_explained := none }
                 , rawBody := "" }
  , anymailKey := some "key-1"
  , now := "2025-01-01T00:00:00.000Z" }

instance {ε α : Type} [DecidableEq ε] [DecidableEq α] : DecidableEq (Except ε α)
  | .ok a, .ok b => if h : a = b then .isTrue (by rw [h]) else .isFalse (by simp [h])
  | .ok _, .error _ => .isFalse (by simp)
  | .error _, .ok _ => .isFalse (by simp)
  | .error e, .error f => if h : e = f then .isTrue (by rw [h]) else .isFalse (by simp [h])

/-- A sample first page used to instantiate the pagination theorem: one
technical posting and one non-technical posting. -/
def sampleRawJob1 : RawJob :=
  ⟨"j1", "Senior Software Engineer", "l1", "Acme", "p1", "Brussels", "2025-01-01"⟩

/-- A sample non-technical posting. -/
def sampleRawJob2 : RawJob :=
  ⟨"j2", "Office Manager", "l2", "Acme", "p2", "Brussels", "2025-01-01"⟩

/-- A sample jobs endpoint: page 1 has two postings, every later page
answers 404. -/
def samplePages : Nat → PageResult := fun p =>
  if p == 1 then .success 200 [sampleRawJob1, sampleRawJob2]
  else .failure (some 404) "no more pages"

/-- The alias-table scan equals a first-match search over the table in
declaration order. -/
theorem lookupKnown_eq_find? (lowerName : String) (l : List (String × String)) :
    lookupKnown lowerName l =
      (l.find? (fun kv => strIncludes lowerName kv.1)).map (fun kv => kv.2) := by
  induction l with
  | nil => rfl
  | cons kv rest ih =>
    by_cases h : strIncludes lowerName kv.1 = true
    · simp [lookupKnown, List.find?_cons, h]
    · simp only [Bool.not_eq_true] at h
      simp [lookupKnown, List.find?_cons, h, ih]

/-- Polling skips over a block of in-progress responses: `n` responses that
are neither ready nor error advance the attempt index by `n` and consume `n`
units of the budget. -/
theorem pollLoopFrom_skip (progress : Nat → String) :
    ∀ (n : Nat) (i r : Nat),
      (∀ j ∈ List.range n, progress (i + j) ≠ "ready" ∧ progress (i + j) ≠ "error") →
      n ≤ r →
      pollLoopFrom progress i r = pollLoopFrom progress (i + n) (r - n) := by
  intro n
  induction n with
  | zero => intro i r _ _; simp
  | succ m ih =>
    intro i r h hle
    obtain ⟨r', rfl⟩ : ∃ r', r = r' + 1 := ⟨r - 1, by omega⟩
    have h0 := h 0 (by simp)
    have step : pollLoopFrom progress i (r' + 1) = pollLoopFrom progress (i + 1) r' := by
      simp only [pollLoopFrom, Nat.add_zero] at *
      rw [if_neg h0.1, if_neg h0.2]
    rw [step]
    have := ih (i + 1) r' (fun j hj => by
      have := h (j + 1) (by simp at hj ⊢; omega)
      simpa [Nat.add_assoc, Nat.add_comm 1 j] using this) (by omega)
    rw [this]
    congr 1 <;> omega

/-- Running the pagination loop over `k` non-empty pages followed by a
terminating page (empty body or thrown 404) accumulates the technical
postings of the `k` pages and records one jobs request per visited page. -/
theorem jobsLoop_run (pages : Nat → PageResult) (company companyId : String)
    (jobsAt : Nat → List RawJob) :
    ∀ (k s : Nat) (acc : List JobPosting) (trace : List ProviderReq) (fuel : Nat),
      k + 1 ≤ fuel →
      (∀ p ∈ List.range' s k, pages p = .success 200 (jobsAt p) ∧ jobsAt p ≠ []) →
      (pages (s + k) = .success 200 [] ∨ ∃ msg, pages (s + k) = .failure (some 404) msg) →
      jobsLoop pages company companyId fuel s acc trace =
        some (.ok (acc ++ (List.range' s k).flatMap (fun p => techFilter (jobsAt p))),
              trace ++ (List.range' s (k + 1)).map (fun p => ProviderReq.jobsPage company companyId p)) := by
  intro k
  induction k with
  | zero =>
    intro s acc trace fuel hfuel _ hstop
    obtain ⟨f, rfl⟩ : ∃ f, fuel = f + 1 := ⟨fuel - 1, by omega⟩
    rcases hstop with hstop | ⟨msg, hstop⟩ <;>
      simp_all [jobsLoop, List.range'_succ]
  | succ m ih =>
    intro s acc trace fuel hfuel h hstop
    obtain ⟨f, rfl⟩ : ∃ f, fuel = f + 1 := ⟨fuel - 1, by omega⟩
    have hs := h s (by simp [List.range'_succ])
    have hne : (jobsAt s).isEmpty = false := by
      cases hj : jobsAt s with
      | nil => exact absurd hj hs.2
      | cons a l => simp
    have step :
        jobsLoop pages company companyId (f + 1) s acc trace =
          jobsLoop pages company companyId f (s + 1) (acc ++ techFilter (jobsAt s))
            (trace ++ [ProviderReq.jobsPage company companyId s]) := by
      simp [jobsLoop, hs.1, hne]
    rw [step]
    have hnext := ih (s + 1) (acc ++ techFilter (jobsAt s))
      (trace ++ [ProviderReq.jobsPage company companyId s]) f (by omega)
      (fun p hp => h p (by simp [List.range'_succ]; right; simpa using hp))
      (by rw [show s + 1 + m = s + (m + 1) by omega]; exact hstop)
    rw [hnext]
    simp [List.range'_succ, List.flatMap_cons]

/-- C4: the keyword classifier returns true exactly when the lowercased
title contains at least one keyword of the fixed multilingual list; it is a
total function (hence pure and deterministic, with no error cases), the
empty title yields false, an absent title (guarded at the call sites by
`|| ''`) yields false, and the two spec examples evaluate as stated. -/
theorem isTechnicalJob_iff_contains_keyword :
    (∀ t : String, isTechnicalJob t = true ↔
      ∃ kw, kw ∈ techKeywords ∧ strIncludes (jsToLower t) kw = true)
    ∧ isTechnicalJob "" = false
    ∧ isTechnicalJobOfTitle none = false
    ∧ isTechnicalJob "Senior Software Engineer" = true
    ∧ isTechnicalJob "Administrative Assistant" = false := by
  refine ⟨fun t => ?_, by decide, by decide, by decide, by decide⟩
  simp only [isTechnicalJob, decide_eq_true_eq, List.length_pos_iff_exists_mem, List.mem_filter]

/-- C5: the identifier resolver maps "RTL Nederland" to "rtl-nederland"
(alias hit) and "Some Rändom Co!!" to "some-rndom-co" (alias miss falling
through to slugification), and in general returns the first alias-table
entry in declaration order whose key is a substring of the lowercased
input, slugifying when no entry matches. -/
theorem generateLinkedInId_first_alias_match_or_slug :
    generateLinkedInId "RTL Nederland" = "rtl-nederland"
    ∧ generateLinkedInId "Some Rändom Co!!" = "some-rndom-co"
    ∧ ∀ name : String,
        generateLinkedInId name =
          match knownCompanyIds.find? (fun kv => strIncludes (jsToLower name) kv.1) with
          | some kv => kv.2
          | none => slugify name := by
  refine ⟨by decide, by decide, fun name => ?_⟩
  simp only [generateLinkedInId, lookupKnown_eq_find?]
  cases h : knownCompanyIds.find? (fun kv => strIncludes (jsToLower name) kv.1) <;> simp

/-- C10: "Booking.com" itself appears as an alias-table key mapping to
"booking-com", yet the resolver returns "ing", because the earlier key
"ing" is a substring of the lowercased input and the scan takes the first
match in declaration order. -/
theorem generateLinkedInId_booking_com_resolves_to_ing :
    generateLinkedInId "Booking.com" = "ing"
    ∧ strIncludes (jsToLower "Booking.com") "ing" = true
    ∧ ("booking.com", "booking-com") ∈ knownCompanyIds
    ∧ (("ing" : String) == "booking-com") = false :=
  ⟨by decide, by decide, by decide, by decide⟩

/-- C6: with the credential configured, a provider status of 404 or 451
yields the success payload with message "Email not found" (not an error), a
402 yields an InternalError whose message opens with "Insufficient
credits", a 400 or 401 yields an InvalidParams error, and a 200 whose body
has the success flag set yields the email payload with email, validity,
success flag and timestamp. -/
theorem fetchEmployeeEmail_status_code_mapping :
    ∀ (args : EmailArgs) (d : EmailData) (st raw now : String),
      fetchEmployeeEmail (some "key-1") args ⟨404, st, d, raw⟩ now =
        (.ok (.notFound "Email not found" now),
         [.emailSearch args.domain args.firstName args.lastName args.companyName])
      ∧ (fetchEmployeeEmail (some "key-1") args ⟨451, st, d, raw⟩ now).1 =
          .ok (.notFound "Email not found" now)
      ∧ (fetchEmployeeEmail (some "key-1") args ⟨402, st, d, raw⟩ now).1 =
          .error ⟨.InternalError,
            "Insufficient credits: " ++ jsOrStr d.error_explained "Account has insufficient credits"⟩
      ∧ (fetchEmployeeEmail (some "key-1") args ⟨400, st, d, raw⟩ now).1 =
          .error ⟨.InvalidParams,
            "Invalid request: " ++ jsOrStr d.error_explained "Authentication error"⟩
      ∧ (fetchEmployeeEmail (some "key-1") args ⟨401, st, d, raw⟩ now).1 =
          .error ⟨.InvalidParams,
            "Invalid request: " ++ jsOrStr d.error_explained "Authentication error"⟩
      ∧ (fetchEmployeeEmail (some "key-1") args ⟨200, st, { d with success := true }, raw⟩ now).1 =
          .ok (.found d.results.email (d.results.validation == "valid") true now) :=
  fun _ _ _ _ _ => ⟨rfl, rfl, rfl, rfl, rfl, rfl⟩

/-- C3 counterexample: a progress response whose status is "error" does not
make the check fail; `getCompaniesData` returns a successful in-progress
payload at this concrete input, contradicting the claim that the workflow
immediately fails with a fatal error. -/
theorem progress_error_status_yields_ok_payload :
    getCompaniesData (some "token-1") ⟨some ⟨some "error"⟩, .array [], "T0"⟩ "snap-1" =
      (.ok (.inProgress "error" "Data collection is still in progress" ⟨some "error"⟩ "snap-1"
        "Please check again in a few moments"), [.progressGet "snap-1"])
    ∧ exceptIsOk (getCompaniesData (some "token-1") ⟨some ⟨some "error"⟩, .array [], "T0"⟩ "snap-1").1 = true :=
  ⟨rfl, rfl⟩

/-- C3 amended: a progress response whose status is "error" is treated like
any other non-ready status: the check returns a non-error in-progress
payload that carries the raw progress payload and the unchanged handle,
advises checking again, and performs no snapshot fetch (the trace holds the
single progress GET). -/
theorem progress_error_status_treated_as_still_processing :
    ∀ (snapshotId now : String) (body : SnapshotData),
      getCompaniesData (some "token-1") ⟨some ⟨some "error"⟩, body, now⟩ snapshotId =
        (.ok (.inProgress "error" "Data collection is still in progress" ⟨some "error"⟩ snapshotId
          "Please check again in a few moments"), [.progressGet snapshotId]) :=
  fun _ _ _ => rfl

/-- C8: at the snapshot-fetch stage, a falsy (empty) response body is a
fatal error, while a truthy body that is an empty collection is a success
with companies equal to the empty list and count zero; the two outcomes are
distinct (one is an error, the other a success). -/
theorem snapshot_empty_body_error_vs_empty_collection_success :
    ∀ (snapshotId now : String),
      getCompaniesData (some "token-1") ⟨some ⟨some "ready"⟩, .absent, now⟩ snapshotId =
        (.error "Error retrieving companies data: Failed to fetch dataset snapshot: Empty response",
         [.progressGet snapshotId, .snapshotGet snapshotId])
      ∧ getCompaniesData (some "token-1") ⟨some ⟨some "ready"⟩, .array [], now⟩ snapshotId =
          (.ok (.ready "ready" "Data collection completed successfully" [] 0 snapshotId now),
           [.progressGet snapshotId, .snapshotGet snapshotId])
      ∧ exceptIsOk (getCompaniesData (some "token-1") ⟨some ⟨some "ready"⟩, .absent, now⟩ snapshotId).1 = false
      ∧ exceptIsOk (getCompaniesData (some "token-1") ⟨some ⟨some "ready"⟩, .array [], now⟩ snapshotId).1 = true :=
  fun _ _ => ⟨rfl, rfl, rfl, rfl⟩

/-- C9: in every provider state, a check issues only progress and snapshot
GET requests for the input handle and never a trigger request (so it cannot
restart collection), every successful return path echoes the input handle
unchanged in its snapshot_id field, and — the embedding being a pure
function of the provider state — repeated checks against the same state
return the same result. -/
theorem companies_data_check_no_trigger_and_echoes_handle :
    ∀ (token : Option String) (w : BrightWorld) (snapshotId : String),
      ((getCompaniesData token w snapshotId).2 = []
        ∨ (getCompaniesData token w snapshotId).2 = [.progressGet snapshotId]
        ∨ (getCompaniesData token w snapshotId).2 = [.progressGet snapshotId, .snapshotGet snapshotId])
      ∧ ((getCompaniesData token w snapshotId).2.all (fun r => !isTriggerReq r)) = true
      ∧ companiesResultEchoes snapshotId (getCompaniesData token w snapshotId).1 = true
      ∧ getCompaniesData token w snapshotId = getCompaniesData token w snapshotId := by
  intro token w snapshotId
  rcases w with ⟨prog, snap, now⟩
  cases htok : truthyOS token
  · simp [getCompaniesData, htok, companiesResultEchoes]
  · cases prog with
    | none => simp [getCompaniesData, htok, companiesResultEchoes, isTriggerReq]
    | some p =>
      by_cases hs : p.status = some "ready"
      · cases snap <;>
          simp [getCompaniesData, htok, hs, companiesResultEchoes, companiesOutSnapshotId, isTriggerReq]
      · simp [getCompaniesData, htok, hs, companiesResultEchoes, companiesOutSnapshotId, isTriggerReq]

/-- C2: for the poll loop modelled from the spec, a progress endpoint that
answers in-progress for the first N attempts and ready at attempt N (with
N + 1 within the 30-attempt budget) makes the workflow poll exactly N + 1
times and fetch the snapshot exactly once, while an endpoint that never
answers ready or error within the budget makes it time out after exactly 30
polls with no snapshot fetch. -/
theorem asyncCollectionJob_poll_counts_and_timeout :
    ∀ (progress : Nat → String) (N : Nat),
      ((∀ j ∈ List.range N, progress j ≠ "ready" ∧ progress j ≠ "error") →
        progress N = "ready" → N + 1 ≤ maxPollAttempts →
        runAsyncCollectionJob progress = (.ready, N + 1, 1))
      ∧ ((∀ j ∈ List.range maxPollAttempts, progress j ≠ "ready" ∧ progress j ≠ "error") →
        runAsyncCollectionJob progress = (.timedOut, maxPollAttempts, 0)) := by
  intro progress N
  constructor
  · intro h hready hle
    have skip := pollLoopFrom_skip progress N 0 maxPollAttempts
      (fun j hj => by simpa using h j hj) (by omega)
    obtain ⟨m, hm⟩ : ∃ m, maxPollAttempts - N = m + 1 := ⟨maxPollAttempts - N - 1, by omega⟩
    simp only [Nat.zero_add] at skip
    rw [runAsyncCollectionJob, skip, hm, pollLoopFrom, if_pos hready]
  · intro h
    have skip := pollLoopFrom_skip progress maxPollAttempts 0 maxPollAttempts
      (fun j hj => by simpa using h j hj) (by omega)
    simp only [Nat.zero_add, Nat.sub_self] at skip
    rw [runAsyncCollectionJob, skip, pollLoopFrom]

/-- C2 witness: an endpoint answering processing twice then ready gives
three polls and one snapshot fetch; an endpoint answering processing
forever gives a timeout after 30 polls and no snapshot fetch. -/
theorem asyncCollectionJob_poll_counts_witness :
    runAsyncCollectionJob (fun i => if i < 2 then "processing" else "ready") = (.ready, 3, 1)
    ∧ runAsyncCollectionJob (fun _ => "processing") = (.timedOut, 30, 0) :=
  ⟨(asyncCollectionJob_poll_counts_and_timeout
      (fun i => if i < 2 then "processing" else "ready") 2).1 (by decide) (by decide) (by decide),
   (asyncCollectionJob_poll_counts_and_timeout (fun _ => "processing") 0).2 (by decide)⟩

/-- C7: for a country in the supported set, when the jobs endpoint serves k
non-empty 200 pages followed by a terminating page (empty body or 404), the
operation returns a success whose filteredJobPostings are exactly the
classifier-accepted postings of those pages in order, whose totalCount
equals their length, whose company and country echo the inputs, and whose
trace visits pages 1 through k + 1 in order; moreover every returned
posting is accepted by the keyword classifier. -/
theorem fetchCompanyJobPostings_paginates_and_filters :
    ∀ (fuel : Nat) (pages : Nat → PageResult) (jobsAt : Nat → List RawJob)
      (company country companyId now : String) (k : Nat),
      (country = "Belgium" ∨ country = "Netherlands") →
      k + 1 ≤ fuel →
      (∀ p ∈ List.range' 1 k, pages p = .success 200 (jobsAt p) ∧ jobsAt p ≠ []) →
      (pages (1 + k) = .success 200 [] ∨ ∃ msg, pages (1 + k) = .failure (some 404) msg) →
      fetchCompanyJobPostings fuel pages company country companyId now =
        some (.ok { company := company, country := country
                  , filteredJobPostings := (List.range' 1 k).flatMap (fun p => techFilter (jobsAt p))
                  , totalCount := ((List.range' 1 k).flatMap (fun p => techFilter (jobsAt p))).length
                  , timestamp := now },
              (List.range' 1 (k + 1)).map (fun p => ProviderReq.jobsPage company companyId p))
      ∧ ∀ j ∈ (List.range' 1 k).flatMap (fun p => techFilter (jobsAt p)),
          isTechnicalJob j.jobPosition = true := by
  intro fuel pages jobsAt company country companyId now k hcountry hfuel h hstop
  constructor
  · have hloop := jobsLoop_run pages company companyId jobsAt k 1 [] [] fuel hfuel h hstop
    rcases hcountry with rfl | rfl <;>
      simp [fetchCompanyJobPostings, countryGeoId, hloop]
  · intro j hj
    rw [List.mem_flatMap] at hj
    obtain ⟨p, _, hjp⟩ := hj
    rw [techFilter, List.mem_filter] at hjp
    exact hjp.2

/-- C7 witness: one page holding a technical and a non-technical posting
followed by a 404 yields exactly the technical posting, a totalCount of
one, the echoed inputs, and two page requests. -/
theorem fetchCompanyJobPostings_paginates_witness :
    fetchCompanyJobPostings 2 samplePages "Acme" "Belgium" "id-1" "T0" =
      some (.ok { company := "Acme", country := "Belgium"
                , filteredJobPostings := [formatJobPosting sampleRawJob1]
                , totalCount := 1, timestamp := "T0" },
            [.jobsPage "Acme" "id-1" 1, .jobsPage "Acme" "id-1" 2]) := by
  have h := (fetchCompanyJobPostings_paginates_and_filters 2 samplePages
    (fun _ => [sampleRawJob1, sampleRawJob2])
    "Acme" "Belgium" "id-1" "T0" 1 (Or.inl rfl) (by decide)
    (by decide) (Or.inr ⟨"no more pages", by decide⟩)).1
  rw [h]
  decide

/-- C1 counterexample: dispatching an unregistered tool name does not fail
with MethodNotFound: the catch block of the handler rewraps the thrown
McpError, so the error that reaches the caller carries code InternalError
(the MethodNotFound diagnostic surviving only inside the message text). -/
theorem unknown_tool_yields_internal_error_code :
    dispatchErrorCode (handleCallTool sampleWorld 1 ⟨"no_such_tool", []⟩) = some .InternalError
    ∧ (ErrorCode.InternalError == ErrorCode.MethodNotFound) = false
    ∧ handleCallTool sampleWorld 1 ⟨"no_such_tool", []⟩ =
        some (.error ⟨.InternalError,
          "Failed to process request: MCP error -32601: Unknown tool: no_such_tool"⟩, []) :=
  ⟨rfl, rfl, by decide⟩

/-- C1 amended: an unregistered tool name fails before any provider call
with an error produced by rewrapping the MethodNotFound diagnostic; a
registered tool with a missing (falsy) validated argument fails before any
provider call with an error produced by rewrapping the InvalidParams
diagnostic that names the checked parameters; and every rewrapped error
carries code InternalError (the catch block of the handler treats its own
McpErrors as plain Errors). -/
theorem dispatcher_validation_rewrapped_as_internal_error :
    ∀ (w : World) (fuel : Nat) (req : ToolRequest),
      ((req.name == "get_company_job_postings") = false →
       (req.name == "get_job_posting_details") = false →
       (req.name == "get_company_information") = false →
       (req.name == "get_employee_work_email") = false →
        handleCallTool w fuel req =
          some (.error (wrapCaughtError ⟨.MethodNotFound, "Unknown tool: " ++ req.name⟩), []))
      ∧ (∀ args : List (String × String),
          (truthyOS (getArg args "company") = false ∨ truthyOS (getArg args "country") = false
            ∨ truthyOS (getArg args "companyId") = false) →
          handleCallTool w fuel ⟨"get_company_job_postings", args⟩ =
            some (.error (wrapCaughtError ⟨.InvalidParams,
              "Missing required parameters: company, country, or companyId"⟩), []))
      ∧ (∀ args, truthyOS (getArg args "jobId") = false →
          handleCallTool w fuel ⟨"get_job_posting_details", args⟩ =
            some (.error (wrapCaughtError ⟨.InvalidParams, "Missing required parameter: jobId"⟩), []))
      ∧ (∀ args, truthyOS (getArg args "companyName") = false →
          handleCallTool w fuel ⟨"get_company_information", args⟩ =
            some (.error (wrapCaughtError ⟨.InvalidParams, "Missing required parameter: companyName"⟩), []))
      ∧ (∀ args, truthyOS (getArg args "domain") = false →
          handleCallTool w fuel ⟨"get_employee_work_email", args⟩ =
            some (.error (wrapCaughtError ⟨.InvalidParams, "Missing required parameter: domain"⟩), []))
      ∧ (∀ args, truthyOS (getArg args "domain") = true →
          (truthyOS (getArg args "firstName") = false ∨ truthyOS (getArg args "lastName") = false) →
          handleCallTool w fuel ⟨"get_employee_work_email", args⟩ =
            some (.error (wrapCaughtError ⟨.InvalidParams,
              "You must provide either firstName and lastName"⟩), []))
      ∧ (∀ e : McpError, (wrapCaughtError e).code = ErrorCode.InternalError) := by
  intro w fuel req
  refine ⟨?_, ?_, ?_, ?_, ?_, ?_, fun e => rfl⟩
  · intro h1 h2 h3 h4
    simp [handleCallTool, handleCallToolInner, h1, h2, h3, h4]
  · rintro args (h | h | h) <;> simp [handleCallTool, handleCallToolInner, h]
  · intro args h
    simp [handleCallTool, handleCallToolInner, h]
  · intro args h
    simp [handleCallTool, handleCallToolInner, h]
  · intro args h
    simp [handleCallTool, handleCallToolInner, h]
  · rintro args hd (h | h) <;> simp [handleCallTool, handleCallToolInner, hd, h]

/-- C1 amended witness: each validation path of the dispatcher instantiated
at a concrete request, with the hypotheses discharged by computation. -/
theorem dispatcher_validation_rewrapped_witness :
    handleCallTool sampleWorld 1 ⟨"zzz", []⟩ =
      some (.error (wrapCaughtError ⟨.MethodNotFound, "Unknown tool: " ++ "zzz"⟩), [])
    ∧ handleCallTool sampleWorld 1 ⟨"get_company_job_postings", []⟩ =
        some (.error (wrapCaughtError ⟨.InvalidParams,
          "Missing required parameters: company, country, or companyId"⟩), [])
    ∧ handleCallTool sampleWorld 1 ⟨"get_job_posting_details", []⟩ =
        some (.error (wrapCaughtError ⟨.InvalidParams, "Missing required parameter: jobId"⟩), [])
    ∧ handleCallTool sampleWorld 1 ⟨"get_company_information", []⟩ =
        some (.error (wrapCaughtError ⟨.InvalidParams, "Missing required parameter: companyName"⟩), [])
    ∧ handleCallTool sampleWorld 1 ⟨"get_employee_work_email", []⟩ =
        some (.error (wrapCaughtError ⟨.InvalidParams, "Missing required parameter: domain"⟩), [])
    ∧ handleCallTool sampleWorld 1 ⟨"get_employee_work_email", [("domain", "x.com")]⟩ =
        some (.error (wrapCaughtError ⟨.InvalidParams,
          "You must provide either firstName and lastName"⟩), []) :=
  ⟨(dispatcher_validation_rewrapped_as_internal_error sampleWorld 1 ⟨"zzz", []⟩).1
      (by decide) (by decide) (by decide) (by decide),
   (dispatcher_validation_rewrapped_as_internal_error sampleWorld 1 ⟨"zzz", []⟩).2.1
      [] (Or.inl (by decide)),
   (dispatcher_validation_rewrapped_as_internal_error sampleWorld 1 ⟨"zzz", []⟩).2.2.1
      [] (by decide),
   (dispatcher_validation_rewrapped_as_internal_error sampleWorld 1 ⟨"zzz", []⟩).2.2.2.1
      [] (by decide),
   (dispatcher_validation_rewrapped_as_internal_error sampleWorld 1 ⟨"zzz", []⟩).2.2.2.2.1
      [] (by decide),
   (dispatcher_validation_rewrapped_as_internal_error sampleWorld 1 ⟨"zzz", []⟩).2.2.2.2.2.1
      [("domain", "x.com")] (by decide) (Or.inl (by decide))⟩
